import Mathlib

/-!
Shallow embedding of `paksimInfo.py` (a small Flask lookup gateway):
query classification (`is_mobile`, `is_local_mobile`, `is_cnic`,
`normalize_mobile`, `classify_query`), the rate limiter
(`rate_limit_wait`), the upstream fetcher (`fetch_upstream`), the HTML
table parser (`parse_table`) and the GET request handler
(`api_lookup_get`), together with theorems checking the natural-language
specification against those definitions.

Modelling conventions:
* Python strings are `String`, reasoned about through their `.data`
  character lists.
* `str.strip()` is `pyStrip`, stripping the ASCII whitespace characters
  Python strips from both ends.
* `re.fullmatch` patterns are decidable predicates over the whole
  character list; `\d` is modelled as an ASCII decimal digit
  (`Char.isDigit`).
* Exceptions (`ValueError`, `PermissionError`, request errors) are
  `Except String` with the exception's message string.
* The HTML tree produced by BeautifulSoup is the inductive `Node`;
  `find` / `find_all` / `get_text(strip=True)` are the document-order
  descendant searches `findNode*` / `findAllNode*` and `getTextStrip`.
* Wall-clock time for the rate limiter is an explicit `ℚ` parameter; an
  idealized `time.sleep(d)` advances the clock by exactly `d`.
-/

namespace PakSim

/-- Characters removed by Python's `str.strip()` (ASCII whitespace). -/
def isPySpace (c : Char) : Bool :=
  c = ' ' || c = '\t' || c = '\n' || c = '\r' || c = '\x0b' || c = '\x0c'

/-- Remove the maximal all-whitespace suffix of a character list. -/
def dropTrailing : List Char → List Char
  | [] => []
  | c :: t =>
    let r := dropTrailing t
    if r.isEmpty && isPySpace c then [] else c :: r

/-- Strip whitespace from both ends of a character list. -/
def stripList (l : List Char) : List Char :=
  dropTrailing (l.dropWhile isPySpace)

/-- Python's `str.strip()`. -/
def pyStrip (s : String) : String :=
  String.mk (stripList s.data)

/-- `is_mobile` from the source: `re.fullmatch(r"92\d{10}", value)`. -/
def is_mobile (value : String) : Bool :=
  decide (value.data.length = 12 ∧ value.data.take 2 = ['9', '2'] ∧
    ∀ c ∈ value.data.drop 2, c.isDigit = true)

/-- `is_local_mobile` from the source: `re.fullmatch(r"03\d{9}", value)`. -/
def is_local_mobile (value : String) : Bool :=
  decide (value.data.length = 11 ∧ value.data.take 2 = ['0', '3'] ∧
    ∀ c ∈ value.data.drop 2, c.isDigit = true)

/-- `is_cnic` from the source: `re.fullmatch(r"\d{13}", value)`. -/
def is_cnic (value : String) : Bool :=
  decide (value.data.length = 13 ∧ ∀ c ∈ value.data, c.isDigit = true)

/-- `normalize_mobile` from the source: strip, keep an international
number, rewrite a local `03…` number to `92` + the rest (`value[1:]`). -/
def normalize_mobile (value : String) : String :=
  let value := pyStrip value
  if is_mobile value then value
  else if is_local_mobile value then "92" ++ String.mk (value.data.drop 1)
  else value

/-- The `ValueError` message raised by `classify_query`. -/
def invalidQueryMsg : String :=
  "Invalid query. Use CNIC (13 digits) or mobile (03XXXXXXXXX / 92XXXXXXXXXX)."

/-- `classify_query` from the source. The code's `"cnic"` tag is the
spec's `national_id` kind; the raised `ValueError` is `Except.error`. -/
def classify_query (value : String) : Except String (String × String) :=
  let v := pyStrip value
  if is_cnic v then Except.ok ("cnic", v)
  else
    let normalized := normalize_mobile v
    if is_mobile normalized then Except.ok ("mobile", normalized)
    else Except.error invalidQueryMsg

theorem dropTrailing_idem (l : List Char) :
    dropTrailing (dropTrailing l) = dropTrailing l := by
  induction l with
  | nil => rfl
  | cons c t ih =>
    show dropTrailing
        (if (dropTrailing t).isEmpty && isPySpace c then []
          else c :: dropTrailing t) =
      (if (dropTrailing t).isEmpty && isPySpace c then []
        else c :: dropTrailing t)
    by_cases h : ((dropTrailing t).isEmpty && isPySpace c) = true
    · rw [if_pos h]; rfl
    · rw [if_neg h]
      show (if (dropTrailing (dropTrailing t)).isEmpty && isPySpace c then []
          else c :: dropTrailing (dropTrailing t)) = c :: dropTrailing t
      rw [ih, if_neg h]

theorem dropTrailing_shape (l : List Char) :
    dropTrailing l = [] ∨
      ∃ c t t', l = c :: t ∧ dropTrailing l = c :: t' := by
  cases l with
  | nil => exact Or.inl rfl
  | cons c t =>
    simp only [dropTrailing]
    by_cases h : ((dropTrailing t).isEmpty && isPySpace c) = true
    · simp [h]
    · simp only [h]
      exact Or.inr ⟨c, t, dropTrailing t, rfl, by simp [h]⟩

theorem dropWhile_head_false {p : Char → Bool} {l : List Char} {c : Char}
    {t : List Char} (h : l.dropWhile p = c :: t) : p c = false := by
  induction l with
  | nil => simp at h
  | cons a l ih =>
    by_cases hp : p a = true
    · simp [List.dropWhile_cons, hp] at h
      exact ih h
    · simp only [Bool.not_eq_true] at hp
      simp [List.dropWhile_cons, hp] at h
      exact h.1 ▸ hp

theorem stripList_idem (l : List Char) :
    stripList (stripList l) = stripList l := by
  unfold stripList
  rcases dropTrailing_shape (l.dropWhile isPySpace) with h | ⟨c, t, t', heq, h⟩
  · simp [h, dropTrailing]
  · have hc : isPySpace c = false := dropWhile_head_false heq
    rw [h, List.dropWhile_cons, hc]
    simp only [Bool.false_eq_true, if_false]
    rw [← h, dropTrailing_idem]

theorem pyStrip_idem (s : String) : pyStrip (pyStrip s) = pyStrip s := by
  simp [pyStrip, stripList_idem]

theorem is_mobile_of_local (v : String) (h : is_local_mobile v = true) :
    is_mobile ("92" ++ String.mk (v.data.drop 1)) = true := by
  simp only [is_local_mobile, decide_eq_true_eq] at h
  obtain ⟨hlen, htake, hdig⟩ := h
  have hsplit : v.data = '0' :: '3' :: v.data.drop 2 := by
    conv_lhs => rw [← List.take_append_drop 2 v.data]
    rw [htake]; rfl
  simp only [is_mobile, decide_eq_true_eq, String.data_append, String.mk]
  rw [hsplit]
  refine ⟨?_, by rfl, ?_⟩
  · have : (v.data.drop 2).length = 9 := by
      rw [List.length_drop, hlen]
    simp [this]
  · intro c hc
    simp only [List.drop_succ_cons, List.drop_zero] at hc
    rcases List.mem_cons.mp hc with h3 | hmem
    · rw [h3]; decide
    · exact hdig c hmem

theorem not_mobile_of_len11 (v : String) (hlen : v.data.length = 11) :
    is_mobile v = false := by
  simp only [is_mobile, decide_eq_false_iff_not]
  rintro ⟨h12, -⟩
  omega

theorem not_cnic_of_len11 (v : String) (hlen : v.data.length = 11) :
    is_cnic v = false := by
  simp only [is_cnic, decide_eq_false_iff_not]
  rintro ⟨h13, -⟩
  omega

theorem norm_mobile_iff (v : String) (hv : pyStrip v = v) :
    is_mobile (normalize_mobile v) = true ↔
      (is_mobile v = true ∨ is_local_mobile v = true) := by
  unfold normalize_mobile
  rw [hv]
  by_cases hm : is_mobile v = true
  · simp [hm]
  · have hm' : is_mobile v = false := by simpa using hm
    by_cases hl : is_local_mobile v = true
    · have hml := is_mobile_of_local v hl
      simp only [List.drop_one] at hml
      simp [hm', hl, hml]
    · have hl' : is_local_mobile v = false := by simpa using hl
      simp [hm', hl']

/-- C1: every input whose trimmed form matches `03` + 9 digits is
classified as a mobile query whose normalized value is `"92"` followed
by the 10 characters left after dropping the leading `"0"`, a
12-character string. -/
theorem classify_query_local_mobile (s : String)
    (h : is_local_mobile (pyStrip s) = true) :
    classify_query s =
      Except.ok ("mobile", "92" ++ String.mk ((pyStrip s).data.drop 1)) ∧
    ("92" ++ String.mk ((pyStrip s).data.drop 1)).length = 12 := by
  have hprop := h
  simp only [is_local_mobile, decide_eq_true_eq] at hprop
  obtain ⟨hlen, htake, hdig⟩ := hprop
  have hcnic : is_cnic (pyStrip s) = false := not_cnic_of_len11 _ hlen
  have hmob : is_mobile (pyStrip s) = false := not_mobile_of_len11 _ hlen
  have hnorm : normalize_mobile (pyStrip s) =
      "92" ++ String.mk ((pyStrip s).data.drop 1) := by
    simp only [List.drop_one]
    simp [normalize_mobile, pyStrip_idem, hmob, h]
  have hmob92 := is_mobile_of_local (pyStrip s) h
  have hnorm' := hnorm
  have hmob92' := hmob92
  simp only [List.drop_one] at hnorm' hmob92'
  constructor
  · simp [classify_query, hcnic, hnorm', hmob92']
  · have hd : ((pyStrip s).data.drop 1).length = 10 := by
      rw [List.length_drop, hlen]
    simp only [String.length_append]
    show ("92".length) + (String.mk ((pyStrip s).data.drop 1)).length = 12
    have hmk : (String.mk ((pyStrip s).data.drop 1)).length =
        ((pyStrip s).data.drop 1).length := rfl
    rw [hmk, hd]
    decide

/-- C1 witness: the spec's end-to-end scenario `"03001234567"`. -/
theorem classify_query_local_mobile_witness :
    is_local_mobile (pyStrip "03001234567") = true ∧
      (classify_query "03001234567" =
        Except.ok ("mobile",
          "92" ++ String.mk ((pyStrip "03001234567").data.drop 1)) ∧
      ("92" ++ String.mk ((pyStrip "03001234567").data.drop 1)).length = 12) :=
  ⟨by decide, classify_query_local_mobile "03001234567" (by decide)⟩

/-- C2: every input whose trimmed form is exactly 13 decimal digits is
classified with the national-id kind (the code's `"cnic"` tag) and its
trimmed value unchanged. -/
theorem classify_query_cnic (s : String) (h : is_cnic (pyStrip s) = true) :
    classify_query s = Except.ok ("cnic", pyStrip s) := by
  simp [classify_query, h]

/-- C2 witness: the spec's end-to-end scenario `"1234567890123"`. -/
theorem classify_query_cnic_witness :
    is_cnic (pyStrip "1234567890123") = true ∧
      classify_query "1234567890123" =
        Except.ok ("cnic", pyStrip "1234567890123") :=
  ⟨by decide, classify_query_cnic "1234567890123" (by decide)⟩

/-- C3: `classify_query` fails exactly when the trimmed input
full-string-matches none of the three accepted patterns (13 digits,
`03`+9 digits, `92`+10 digits), the only error message is
`invalidQueryMsg`, and that message names both accepted formats
(it contains `"CNIC"` and `"mobile"`). -/
theorem classify_query_invalid_iff (s : String) :
    ((∃ msg, classify_query s = Except.error msg) ↔
      (is_cnic (pyStrip s) = false ∧ is_mobile (pyStrip s) = false ∧
        is_local_mobile (pyStrip s) = false)) ∧
    (∀ msg, classify_query s = Except.error msg → msg = invalidQueryMsg) ∧
    (∃ a b, invalidQueryMsg = a ++ ("CNIC" ++ b)) ∧
    (∃ a b, invalidQueryMsg = a ++ ("mobile" ++ b)) := by
  have hv : pyStrip (pyStrip s) = pyStrip s := pyStrip_idem s
  refine ⟨?_, ?_, ?_, ?_⟩
  · by_cases hc : is_cnic (pyStrip s) = true
    · simp [classify_query, hc]
    · have hc' : is_cnic (pyStrip s) = false := by simpa using hc
      by_cases hm : is_mobile (normalize_mobile (pyStrip s)) = true
      · have hdis := (norm_mobile_iff (pyStrip s) hv).mp hm
        apply iff_of_false
        · simp [classify_query, hc', hm]
        · rintro ⟨-, h1, h2⟩
          rcases hdis with hd | hd
          · rw [hd] at h1; cases h1
          · rw [hd] at h2; cases h2
      · have hm' : is_mobile (normalize_mobile (pyStrip s)) = false := by
          simpa using hm
        apply iff_of_true
        · exact ⟨invalidQueryMsg, by simp [classify_query, hc', hm']⟩
        · refine ⟨hc', ?_, ?_⟩
          · by_contra hne
            rw [Bool.not_eq_false] at hne
            have := (norm_mobile_iff (pyStrip s) hv).mpr (Or.inl hne)
            rw [this] at hm'; cases hm'
          · by_contra hne
            rw [Bool.not_eq_false] at hne
            have := (norm_mobile_iff (pyStrip s) hv).mpr (Or.inr hne)
            rw [this] at hm'; cases hm'
  · intro msg h
    by_cases hc : is_cnic (pyStrip s) = true
    · simp [classify_query, hc] at h
    · by_cases hm : is_mobile (normalize_mobile (pyStrip s)) = true
      · simp [classify_query, hc, hm] at h
      · simp [classify_query, hc, hm] at h
        exact h.symm
  · exact ⟨"Invalid query. Use ",
      " (13 digits) or mobile (03XXXXXXXXX / 92XXXXXXXXXX).", by decide⟩
  · exact ⟨"Invalid query. Use CNIC (13 digits) or ",
      " (03XXXXXXXXX / 92XXXXXXXXXX).", by decide⟩

/-- C3 witness: the spec's scenario `"abc"` matches no pattern and is
rejected with the message naming both formats. -/
theorem classify_query_invalid_iff_witness :
    classify_query "abc" = Except.error invalidQueryMsg ∧
      invalidQueryMsg = invalidQueryMsg :=
  ⟨by
    obtain ⟨msg, hmsg⟩ := (classify_query_invalid_iff "abc").1.mpr
      ⟨by decide, by decide, by decide⟩
    rw [hmsg, (classify_query_invalid_iff "abc").2.1 msg hmsg],
   rfl⟩

/-- An HTML node as produced by BeautifulSoup: a tag with its `class`
attribute values and children, or a text node. A parsed document is the
list of top-level nodes. -/
inductive Node where
  | elem (tag : String) (classes : List String) (children : List Node)
  | text (s : String)

/-- Children of a node (a text node has none). -/
def Node.childrenOf : Node → List Node
  | .elem _ _ ch => ch
  | .text _ => []

mutual

/-- BeautifulSoup `find` restricted to one subtree: first node (itself
included) in document order satisfying `p`. -/
def findNode (p : Node → Bool) : Node → Option Node
  | .text _ => none
  | .elem t c ch =>
    if p (.elem t c ch) then some (.elem t c ch) else findNodes p ch

/-- BeautifulSoup `find` over a forest: first descendant in document
order satisfying `p`. -/
def findNodes (p : Node → Bool) : List Node → Option Node
  | [] => none
  | n :: ns =>
    match findNode p n with
    | some r => some r
    | none => findNodes p ns

end

mutual

/-- BeautifulSoup `find_all` restricted to one subtree: all nodes
(itself included) in document order satisfying `p`. -/
def findAllNode (p : Node → Bool) : Node → List Node
  | .text _ => []
  | .elem t c ch =>
    (if p (.elem t c ch) then [Node.elem t c ch] else []) ++ findAllNodes p ch

/-- BeautifulSoup `find_all` over a forest. -/
def findAllNodes (p : Node → Bool) : List Node → List Node
  | [] => []
  | n :: ns => findAllNode p n ++ findAllNodes p ns

end

mutual

/-- `get_text(strip=True)`: concatenation of all text fragments in the
subtree, each stripped of surrounding whitespace. -/
def getTextStrip : Node → String
  | .text s => pyStrip s
  | .elem _ _ ch => getTextStripList ch

/-- `get_text(strip=True)` over a forest of children. -/
def getTextStripList : List Node → String
  | [] => ""
  | n :: ns => getTextStrip n ++ getTextStripList ns

end

/-- Matches `soup.find("table")`. -/
def isTableTag : Node → Bool
  | .elem t _ _ => t == "table"
  | _ => false

/-- Matches `soup.find("table", {"class": "api-response"})`:
a `table` element whose class attribute contains `api-response`. -/
def isApiResponseTable : Node → Bool
  | .elem t cls _ => t == "table" && cls.contains "api-response"
  | _ => false

/-- Matches `find("tbody")`. -/
def isTbody : Node → Bool
  | .elem t _ _ => t == "tbody"
  | _ => false

/-- Matches `find_all("tr")`. -/
def isTr : Node → Bool
  | .elem t _ _ => t == "tr"
  | _ => false

/-- Matches `find_all("td")`. -/
def isTd : Node → Bool
  | .elem t _ _ => t == "td"
  | _ => false

/-- One parsed row, the dict built by `parse_table`
(`mobile`, `name`, `cnic`, `address`), trailing cells optional. -/
structure Record where
  mobile : Option String
  name : Option String
  cnic : Option String
  address : Option String
deriving DecidableEq, Repr

/-- The deduplication key used by `parse_table`:
`key = (mobile, cnic, name)`. -/
def recordKey (r : Record) : Option String × Option String × Option String :=
  (r.mobile, r.cnic, r.name)

/-- The cell texts of one row:
`[td.get_text(strip=True) for td in tr.find_all("td")]`. -/
def rowCols (tr : Node) : List String :=
  (findAllNodes isTd tr.childrenOf).map getTextStrip

/-- The record built from one row: `cols[i] if len(cols) > i else None`
in the fixed order mobile, name, cnic, address. -/
def rowToRecord (tr : Node) : Record :=
  let cols := rowCols tr
  { mobile := cols[0]?, name := cols[1]?, cnic := cols[2]?, address := cols[3]? }

/-- The dedup loop of `parse_table`: skip a row whose key was already
seen, otherwise record the key and keep the row's record. -/
def dedupRows : List Node → List (Option String × Option String × Option String) → List Record
  | [], _ => []
  | tr :: trs, seen =>
    let r := rowToRecord tr
    if recordKey r ∈ seen then dedupRows trs seen
    else r :: dedupRows trs (recordKey r :: seen)

/-- The table selected by `parse_table`:
`soup.find("table", {"class": "api-response"}) or soup.find("table")`. -/
def selectedTable (doc : List Node) : Option Node :=
  match findNodes isApiResponseTable doc with
  | some t => some t
  | none => findNodes isTableTag doc

/-- The rows `parse_table` iterates over: none when there is no table or
the table has no `tbody`, else `tbody.find_all("tr")`. -/
def tableRows (doc : List Node) : List Node :=
  match selectedTable doc with
  | none => []
  | some table =>
    match findNodes isTbody table.childrenOf with
    | none => []
    | some tbody => findAllNodes isTr tbody.childrenOf

/-- `parse_table` from the source: select the table, read its `tbody`
rows, and keep the first record for each `(mobile, cnic, name)` key. -/
def parse_table (doc : List Node) : List Record :=
  dedupRows (tableRows doc) []

/-- A `<td>` holding one text fragment. -/
def tdCell (s : String) : Node := Node.elem "td" [] [Node.text s]

/-- A `<tr>` with one `<td>` per cell text. -/
def trRow (cells : List String) : Node := Node.elem "tr" [] (cells.map tdCell)

/-- A document with one plain `<table><tbody>…</tbody></table>`. -/
def tableDoc (rows : List Node) : List Node :=
  [Node.elem "table" [] [Node.elem "tbody" [] rows]]

theorem rowToRecord_trRow4 (m n c a : String)
    (hm : pyStrip m = m) (hn : pyStrip n = n) (hc : pyStrip c = c)
    (ha : pyStrip a = a) :
    rowToRecord (trRow [m, n, c, a]) =
      { mobile := some m, name := some n, cnic := some c, address := some a } := by
  simp [rowToRecord, rowCols, trRow, tdCell, Node.childrenOf, findAllNodes,
    findAllNode, isTd, getTextStrip, getTextStripList, hm, hn, hc, ha]

/-- C4: `parse_table` deduplicates by the `(mobile, cnic, name)` key
with the first occurrence winning: two rows sharing the key but with
different addresses yield only the first row's record, and two identical
rows yield exactly one record. -/
theorem parse_table_dedup_first_wins (m n c a1 a2 : String)
    (hm : pyStrip m = m) (hn : pyStrip n = n) (hc : pyStrip c = c)
    (ha1 : pyStrip a1 = a1) (ha2 : pyStrip a2 = a2) (_hne : a1 ≠ a2) :
    parse_table (tableDoc [trRow [m, n, c, a1], trRow [m, n, c, a2]]) =
      [{ mobile := some m, name := some n, cnic := some c, address := some a1 }] ∧
    parse_table (tableDoc [trRow [m, n, c, a1], trRow [m, n, c, a1]]) =
      [{ mobile := some m, name := some n, cnic := some c, address := some a1 }] := by
  have h1 := rowToRecord_trRow4 m n c a1 hm hn hc ha1
  have h2 := rowToRecord_trRow4 m n c a2 hm hn hc ha2
  have hrowsA : tableRows (tableDoc [trRow [m, n, c, a1], trRow [m, n, c, a2]]) =
      [trRow [m, n, c, a1], trRow [m, n, c, a2]] := rfl
  have hrowsB : tableRows (tableDoc [trRow [m, n, c, a1], trRow [m, n, c, a1]]) =
      [trRow [m, n, c, a1], trRow [m, n, c, a1]] := rfl
  constructor
  · unfold parse_table
    rw [hrowsA]
    simp [dedupRows, h1, h2, recordKey]
  · unfold parse_table
    rw [hrowsB]
    simp [dedupRows, h1, recordKey]

/-- C4 witness: two concrete rows differing only in address, and two
identical concrete rows. -/
theorem parse_table_dedup_first_wins_witness :
    parse_table (tableDoc [trRow ["03001234567", "Ali", "3520112345671", "Lahore"],
        trRow ["03001234567", "Ali", "3520112345671", "Karachi"]]) =
      [{ mobile := some "03001234567", name := some "Ali",
         cnic := some "3520112345671", address := some "Lahore" }] ∧
    parse_table (tableDoc [trRow ["03001234567", "Ali", "3520112345671", "Lahore"],
        trRow ["03001234567", "Ali", "3520112345671", "Lahore"]]) =
      [{ mobile := some "03001234567", name := some "Ali",
         cnic := some "3520112345671", address := some "Lahore" }] :=
  parse_table_dedup_first_wins "03001234567" "Ali" "3520112345671" "Lahore"
    "Karachi" (by decide) (by decide) (by decide) (by decide) (by decide)
    (by decide)

theorem dedupRows_eq_map (trs : List Node)
    (seen : List (Option String × Option String × Option String))
    (h : (trs.map (fun tr => recordKey (rowToRecord tr))).Nodup)
    (hdisj : ∀ tr ∈ trs, recordKey (rowToRecord tr) ∉ seen) :
    dedupRows trs seen = trs.map rowToRecord := by
  induction trs generalizing seen with
  | nil => rfl
  | cons tr trs ih =>
    have hk : recordKey (rowToRecord tr) ∉ seen :=
      hdisj tr (List.mem_cons_self tr trs)
    simp only [dedupRows]
    rw [if_neg hk]
    simp only [List.map_cons, List.cons.injEq, true_and]
    rw [List.map_cons, List.nodup_cons] at h
    refine ih _ h.2 ?_
    intro tr' htr'
    simp only [List.mem_cons]
    rintro (heq | hmem)
    · exact h.1 (heq ▸
        List.mem_map_of_mem (fun tr => recordKey (rowToRecord tr)) htr')
    · exact hdisj tr' (List.mem_cons_of_mem _ htr') hmem

/-- C5: on a table whose rows have pairwise-distinct
`(mobile, cnic, name)` keys, `parse_table` returns one record per row,
each row's cells per-cell whitespace-stripped and otherwise unchanged
(`rowToRecord`), in the table's original order. -/
theorem parse_table_nodup_keys (doc : List Node)
    (h : ((tableRows doc).map (fun tr => recordKey (rowToRecord tr))).Nodup) :
    parse_table doc = (tableRows doc).map rowToRecord := by
  unfold parse_table
  exact dedupRows_eq_map (tableRows doc) [] h (by simp)

/-- C5 witness: a concrete two-row table with distinct keys parses to
both records in order. -/
theorem parse_table_nodup_keys_witness :
    parse_table (tableDoc [trRow ["0300", "Ali", "35201", "Lahore"],
        trRow ["0301", "Sara", "35202", "Karachi"]]) =
      (tableRows (tableDoc [trRow ["0300", "Ali", "35201", "Lahore"],
        trRow ["0301", "Sara", "35202", "Karachi"]])).map rowToRecord :=
  parse_table_nodup_keys
    (tableDoc [trRow ["0300", "Ali", "35201", "Lahore"],
      trRow ["0301", "Sara", "35202", "Karachi"]]) (by decide)

theorem api_table_le_table (n : Node) (h : isApiResponseTable n = true) :
    isTableTag n = true := by
  cases n with
  | text s => cases h
  | elem t c ch =>
    simp only [isApiResponseTable, Bool.and_eq_true] at h
    simpa [isTableTag] using h.1

mutual

theorem findNode_api_none (n : Node) (h : findNode isTableTag n = none) :
    findNode isApiResponseTable n = none := by
  cases n with
  | text s => rfl
  | elem t c ch =>
    simp only [findNode] at h ⊢
    by_cases ht : isTableTag (Node.elem t c ch) = true
    · rw [if_pos ht] at h; cases h
    · have ht' : ¬ (isTableTag (Node.elem t c ch) = true) := ht
      rw [if_neg ht'] at h
      have hapi : ¬ (isApiResponseTable (Node.elem t c ch) = true) :=
        fun hh => ht' (api_table_le_table _ hh)
      rw [if_neg hapi]
      exact findNodes_api_none ch h

theorem findNodes_api_none (l : List Node) (h : findNodes isTableTag l = none) :
    findNodes isApiResponseTable l = none := by
  cases l with
  | nil => rfl
  | cons n ns =>
    simp only [findNodes] at h ⊢
    cases hfn : findNode isTableTag n with
    | some r => rw [hfn] at h; simp at h
    | none =>
      rw [hfn] at h
      rw [findNode_api_none n hfn]
      exact findNodes_api_none ns h

end

/-- C6: `parse_table` is total (a Lean function) and never errors: a
document with no `table` element parses to the empty result set, and a
row with fewer than four cells yields a record whose missing trailing
fields are `none`. -/
theorem parse_table_total (doc : List Node) (tr : Node) :
    (findNodes isTableTag doc = none → parse_table doc = []) ∧
    ((rowCols tr).length ≤ 3 → (rowToRecord tr).address = none) ∧
    ((rowCols tr).length ≤ 2 → (rowToRecord tr).cnic = none) ∧
    ((rowCols tr).length ≤ 1 → (rowToRecord tr).name = none) ∧
    ((rowCols tr).length = 0 → (rowToRecord tr).mobile = none) := by
  refine ⟨?_, ?_, ?_, ?_, ?_⟩
  · intro h
    have hapi := findNodes_api_none doc h
    simp [parse_table, tableRows, selectedTable, hapi, h, dedupRows]
  all_goals
    intro h
    simp only [rowToRecord]
    exact List.getElem?_eq_none (by omega)

/-- C6 witness: a table-free document parses to `[]`, and a one-cell
row has `none` for name, cnic and address. -/
theorem parse_table_total_witness :
    (parse_table [Node.text "no results"] = []) ∧
    ((rowToRecord (trRow ["0300"])).address = none) :=
  ⟨(parse_table_total [Node.text "no results"] (trRow ["0300"])).1 rfl,
   (parse_table_total [Node.text "no results"] (trRow ["0300"])).2.1 (by decide)⟩

/-- C10: when the selected table element has no `tbody` descendant,
`parse_table` returns the empty result set even if rows sit directly
under the table. -/
theorem parse_table_no_tbody (doc : List Node) (table : Node)
    (hsel : selectedTable doc = some table)
    (htb : findNodes isTbody table.childrenOf = none) :
    parse_table doc = [] := by
  simp [parse_table, tableRows, hsel, htb, dedupRows]

/-- A table whose rows sit directly under `<table>`, with no `tbody`. -/
def noTbodyDoc : List Node :=
  [Node.elem "table" [] [trRow ["03001234567", "Ali", "3520112345671", "Lahore"]]]

/-- C10 witness: the rows of `noTbodyDoc` are present but never
extracted. -/
theorem parse_table_no_tbody_witness : parse_table noTbodyDoc = [] :=
  parse_table_no_tbody noTbodyDoc
    (Node.elem "table" [] [trRow ["03001234567", "Ali", "3520112345671", "Lahore"]])
    rfl rfl

/-- `DEVELOPER` from the source. -/
def DEVELOPER : String := "Savitar"

/-- `ALLOW_UPSTREAM` from the source (hardcoded `True` at module level). -/
def ALLOW_UPSTREAM : Bool := true

/-- Default of `MIN_INTERVAL = float(os.getenv("MIN_INTERVAL", "1.0"))`
in seconds; theorems quantify over the configured value. -/
def MIN_INTERVAL : ℚ := 1

/-- `rate_limit_wait` under an idealized clock: `ts` is `LAST_CALL["ts"]`,
`now` is `time.time()` on entry, and `time.sleep(d)` advances the clock
by exactly `d`. The result is the instant at which the call returns,
which is also the new `LAST_CALL["ts"]` recorded just before
returning. -/
def rate_limit_wait (minInterval ts now : ℚ) : ℚ :=
  let elapsed := now - ts
  if elapsed < minInterval then now + (minInterval - elapsed) else now

/-- C8: sequential `rate_limit_wait` calls are spaced by at least the
minimum interval: if the previous call recorded timestamp `ts` and the
next call starts at `now ≥ ts`, the next call returns (and records its
timestamp) no earlier than `ts + minInterval`. -/
theorem rate_limit_wait_spec (minInterval ts now : ℚ) (_h : ts ≤ now) :
    minInterval ≤ rate_limit_wait minInterval ts now - ts := by
  unfold rate_limit_wait
  by_cases hlt : now - ts < minInterval
  · rw [if_pos hlt]; ring_nf; linarith
  · rw [if_neg hlt]; linarith

/-- C8 witness: a second call issued at the very instant the first one
recorded its timestamp still waits out the full default interval. -/
theorem rate_limit_wait_spec_witness :
    (0 : ℚ) ≤ 0 ∧ MIN_INTERVAL ≤ rate_limit_wait MIN_INTERVAL 0 0 - 0 :=
  ⟨le_refl 0, rate_limit_wait_spec MIN_INTERVAL 0 0 (le_refl 0)⟩

/-- Observable side effects of `fetch_upstream`, in program order:
acquiring the rate limiter (`rate_limit_wait()`) and the outbound
`session.post` carrying `search_query`. -/
inductive FetchEffect where
  | rateLimitAcquire
  | httpPost (query : String)
deriving DecidableEq, Repr

/-- `fetch_upstream` from the source: raise `PermissionError` when the
upstream flag is off, otherwise acquire the rate limiter and POST the
query; `net` models the network (response text, or the message of the
`requests` exception / `raise_for_status`). The second component is the
trace of performed side effects. -/
def fetch_upstream (allowUpstream : Bool)
    (net : String → Except String String) (query_value : String) :
    Except String String × List FetchEffect :=
  if !allowUpstream then
    (Except.error "Upstream fetching disabled.", [])
  else
    (net query_value, [FetchEffect.rateLimitAcquire,
      FetchEffect.httpPost query_value])

/-- C9: with the upstream flag off, `fetch_upstream` fails immediately
with the `PermissionError` message and an empty effect trace: the rate
limiter is never acquired and no network call happens. -/
theorem fetch_upstream_disabled (net : String → Except String String)
    (q : String) :
    fetch_upstream false net q =
      (Except.error "Upstream fetching disabled.", []) := by
  simp [fetch_upstream]

/-- The JSON bodies the lookup endpoint can produce: the success
envelope of `make_response_object`, or an error object (the 400 body
has no `detail`, the 500 body carries one). -/
inductive Body where
  | envelope (query : String) (queryType : String) (resultsCount : Nat)
      (results : List Record) (developer : String)
  | errorBody (error : String) (detail : Option String) (developer : String)
deriving DecidableEq, Repr

/-- `make_response_object` from the source:
`results_count` is `len(results)` and `developer` is the constant. -/
def make_response_object (query qtype : String) (results : List Record) : Body :=
  Body.envelope query qtype results.length results DEVELOPER

/-- Python `or` on optional query-string values: the left operand unless
it is falsy (absent or the empty string). -/
def pyOr (a b : Option String) : Option String :=
  match a with
  | some s => if s = "" then b else some s
  | none => b

/-- `request.args.get("query") or request.args.get("q") or
request.args.get("value")`. -/
def getQueryArg (args : String → Option String) : Option String :=
  pyOr (args "query") (pyOr (args "q") (args "value"))

/-- Python truthiness of the extracted query (`if not q`): present and
non-empty. -/
def isTruthy : Option String → Bool
  | some s => !(s == "")
  | none => false

/-- `api_lookup_get` from the source: 400 when no truthy query value is
supplied, otherwise classify, fetch (`fetchHtml` models
`fetch_upstream`'s outcome), parse (`soup` is the HTML-parsing
capability feeding `parse_table`), and wrap; any exception from the
pipeline is caught and mapped to a 500 with the uniform error body. -/
def api_lookup_get (args : String → Option String)
    (fetchHtml : String → Except String String)
    (soup : String → List Node) : Nat × Body :=
  let q := getQueryArg args
  if isTruthy q then
    match classify_query (q.getD "") with
    | Except.error e =>
      (500, Body.errorBody "Fetch failed" (some e) DEVELOPER)
    | Except.ok (qtype, normalized) =>
      match fetchHtml normalized with
      | Except.error e =>
        (500, Body.errorBody "Fetch failed" (some e) DEVELOPER)
      | Except.ok html =>
        (200, make_response_object normalized qtype (parse_table (soup html)))
  else
    (400, Body.errorBody "Use ?query=<mobile or cnic>" none DEVELOPER)

/-- C7: the lookup endpoint answers 400 exactly when no query value is
carried; when one is carried, an error from classification or from the
fetch is caught and answered with 500 and the uniform
`Fetch failed` error body carrying the error's message (parsing is
total, so it never raises). -/
theorem api_lookup_get_error_policy (args : String → Option String)
    (fetchHtml : String → Except String String) (soup : String → List Node) :
    ((api_lookup_get args fetchHtml soup).1 = 400 ↔
      isTruthy (getQueryArg args) = false) ∧
    (∀ e, isTruthy (getQueryArg args) = true →
      classify_query ((getQueryArg args).getD "") = Except.error e →
      api_lookup_get args fetchHtml soup =
        (500, Body.errorBody "Fetch failed" (some e) DEVELOPER)) ∧
    (∀ e qt nv, isTruthy (getQueryArg args) = true →
      classify_query ((getQueryArg args).getD "") = Except.ok (qt, nv) →
      fetchHtml nv = Except.error e →
      api_lookup_get args fetchHtml soup =
        (500, Body.errorBody "Fetch failed" (some e) DEVELOPER)) := by
  refine ⟨?_, ?_, ?_⟩
  · by_cases ht : isTruthy (getQueryArg args) = true
    · apply iff_of_false
      · unfold api_lookup_get
        rw [if_pos ht]
        cases hcq : classify_query ((getQueryArg args).getD "") with
        | error e => simp
        | ok v =>
          obtain ⟨qt, nv⟩ := v
          cases hf : fetchHtml nv with
          | error e => simp [hf]
          | ok html => simp [hf]
      · simp [ht]
    · have ht' : isTruthy (getQueryArg args) = false := by simpa using ht
      apply iff_of_true
      · unfold api_lookup_get
        rw [if_neg (by simp [ht'])]
      · exact ht'
  · intro e ht hcq
    unfold api_lookup_get
    rw [if_pos ht, hcq]
  · intro e qt nv ht hcq hf
    unfold api_lookup_get
    rw [if_pos ht, hcq]
    simp [hf]

/-- Request arguments for the spec's scenario 3: `?query=abc`. -/
def argsAbc : String → Option String :=
  fun k => if k = "query" then some "abc" else none

/-- C7 witness: `?query=abc` carries a value, classification fails, and
the endpoint answers 500 with the uniform error body. -/
theorem api_lookup_get_error_policy_witness :
    api_lookup_get argsAbc (fun _ => Except.error "net down") (fun _ => []) =
      (500, Body.errorBody "Fetch failed" (some invalidQueryMsg) DEVELOPER) :=
  (api_lookup_get_error_policy argsAbc (fun _ => Except.error "net down")
    (fun _ => [])).2.1 invalidQueryMsg rfl rfl

end PakSim
